import Mathlib

/-!
Shallow embedding of the DoS detection engine of `src/DOS tester/firewall.py`
(class `DoSDetector`).  Timestamps (Python floats produced by `time.time()`)
are modelled as `Int`; source IPs are abstract identifiers modelled as `Nat`;
Python `dict`s keyed by source IP are modelled as association lists in
insertion order; the `deque(maxlen=100)` alert history is a list with newest
elements at the tail.
-/

namespace IrisFirewall

/-- One decoded network event, as seen by `DoSDetector._check_attack_signatures`:
presence of the scapy TCP / ICMP / Raw layers, the TCP flag bits, the TCP
destination port and the raw payload text. -/
structure PacketEvent where
  hasTCP : Bool
  hasICMP : Bool
  hasRaw : Bool
  tcpFlags : Nat
  dport : Nat
  payload : List Char
deriving DecidableEq

/-- The three per-source signature counters `syn_flood_tracking`,
`http_flood_tracking`, `icmp_flood_tracking` for a single source. -/
structure Counters where
  syn : Nat
  http : Nat
  icmp : Nat
deriving DecidableEq

/-- Whether `needle` occurs at the start of `hay` (helper for the Python
substring test). -/
def startsWithChars : List Char → List Char → Bool
  | [], _ => true
  | _ :: _, [] => false
  | n :: ns, h :: hs => n == h && startsWithChars ns hs

/-- The Python `needle in hay` substring test on strings. -/
def containsSub (needle : List Char) : List Char → Bool
  | [] => startsWithChars needle []
  | h :: hs => startsWithChars needle (h :: hs) || containsSub needle hs

/-- `"GET" in payload or "POST" in payload or "HTTP" in payload`
(firewall.py line 171). -/
def hasHttpMarker (payload : List Char) : Bool :=
  containsSub "GET".toList payload || containsSub "POST".toList payload ||
    containsSub "HTTP".toList payload

/-- SYN-flood signature (firewall.py line 165):
`TCP in packet and packet[TCP].flags & 0x02 and not packet[TCP].flags & 0x10`. -/
def synSig (e : PacketEvent) : Bool :=
  e.hasTCP && !(e.tcpFlags &&& 2 == 0) && (e.tcpFlags &&& 16 == 0)

/-- HTTP-flood signature (firewall.py lines 169-171): TCP to port 80 or 443
with a Raw payload containing one of the HTTP markers. -/
def httpSig (e : PacketEvent) : Bool :=
  e.hasTCP && (e.dport == 80 || e.dport == 443) && e.hasRaw &&
    hasHttpMarker e.payload

/-- ICMP-flood signature (firewall.py line 175): `ICMP in packet`. -/
def icmpSig (e : PacketEvent) : Bool :=
  e.hasICMP

/-- `DoSDetector._check_attack_signatures` (firewall.py lines 161-179): the
three signature checks are three independent `if` statements executed in
sequence on the same event; each matching check increments its own counter. -/
def checkAttackSignatures (e : PacketEvent) (c : Counters) : Counters :=
  let c1 := if synSig e then { c with syn := c.syn + 1 } else c
  let c2 := if httpSig e then { c1 with http := c1.http + 1 } else c1
  if icmpSig e then { c2 with icmp := c2.icmp + 1 } else c2

/-- Attack-type labels produced by the detector (the strings "SYN flood",
"HTTP flood", "ICMP flood", "General DoS"). -/
inductive AttackType where
  | synFlood
  | httpFlood
  | icmpFlood
  | generalDoS
deriving DecidableEq

/-- Per-source tracked state as read by `_check_thresholds`: the timestamp
window `packet_timestamps[src_ip]` plus the three signature counters. -/
structure TrafficRecord where
  window : List Int
  syn : Nat
  http : Nat
  icmp : Nat
deriving DecidableEq

/-- `DoSDetector._clean_old_timestamps` body (firewall.py lines 261-264):
keep exactly the timestamps `ts` with `current_time - ts <= time_window`. -/
def cleanOldTimestamps (window : List Int) (currentTime timeWindow : Int) : List Int :=
  window.filter (fun ts => decide (currentTime - ts ≤ timeWindow))

/-- Detector configuration (constructor arguments of `DoSDetector`). -/
structure Config where
  threshold : Nat
  timeWindow : Int
  blockIps : Bool
  apiUrl : Option String

/-- The `max(attack_types.items(), key=...)` step of
`DoSDetector._determine_attack_type` (firewall.py line 217): the Python `max` builtin
keeps the first item reaching the maximal value, and the dict enumerates in
insertion order SYN flood, HTTP flood, ICMP flood, so a later entry wins only
with a strictly greater count. -/
def maxSig (syn http icmp : Nat) : AttackType × Nat :=
  let m1 := if http > syn then (AttackType.httpFlood, http) else (AttackType.synFlood, syn)
  if icmp > m1.2 then (AttackType.icmpFlood, icmp) else m1

/-- `DoSDetector._determine_attack_type` (firewall.py lines 208-224). -/
def determineAttackType (syn http icmp threshold : Nat) : AttackType :=
  let m := maxSig syn http icmp
  if m.2 > threshold / 5 then m.1 else AttackType.generalDoS

/-- The decision made by `DoSDetector._check_thresholds` (firewall.py lines
181-206) for one source: clean old timestamps first, then run the
`if / elif / elif / elif` chain; the returned pair is the attack type and the
`packet_count` argument passed to `_trigger_alert`, `none` when no branch
fires. -/
def checkThresholdsRec (r : TrafficRecord) (currentTime : Int) (cfg : Config) :
    Option (AttackType × Nat) :=
  if (cleanOldTimestamps r.window currentTime cfg.timeWindow).length ≥ cfg.threshold then
    some (determineAttackType r.syn r.http r.icmp cfg.threshold,
      (cleanOldTimestamps r.window currentTime cfg.timeWindow).length)
  else if r.syn ≥ cfg.threshold / 2 then
    some (AttackType.synFlood, r.syn)
  else if r.http ≥ cfg.threshold / 3 then
    some (AttackType.httpFlood, r.http)
  else if r.icmp ≥ cfg.threshold / 4 then
    some (AttackType.icmpFlood, r.icmp)
  else
    none

/-- One alert record as built by `_trigger_alert` (firewall.py lines 237-242). -/
structure Alert where
  timestamp : Int
  srcIp : Nat
  packetCount : Nat
  attackType : AttackType
deriving DecidableEq

/-- `deque(maxlen=n).append`: append at the tail, evicting from the head when
the length would exceed `maxlen` (firewall.py line 69 with maxlen 100). -/
def dequeAppend (maxlen : Nat) (hist : List Alert) (a : Alert) : List Alert :=
  if (hist ++ [a]).length > maxlen then
    (hist ++ [a]).drop ((hist ++ [a]).length - maxlen)
  else
    hist ++ [a]

/-- The duplicate-suppression scan at the top of `_trigger_alert`
(firewall.py lines 229-232): some alert in the history has the same source
and fired strictly less than `time_window * 2` seconds ago. -/
def isDuplicate (hist : List Alert) (srcIp : Nat) (now timeWindow : Int) : Bool :=
  hist.any (fun a => a.srcIp == srcIp && decide (now - a.timestamp < timeWindow * 2))

/-- Association-list model of a Python dict lookup `d.get(k)`. -/
def alookup {α : Type} (k : Nat) : List (Nat × α) → Option α
  | [] => none
  | p :: tl => if p.1 = k then some p.2 else alookup k tl

/-- Association-list model of a Python dict assignment `d[k] = v`: overwrite
in place when the key exists, else append at the tail (insertion order). -/
def aset {α : Type} (l : List (Nat × α)) (k : Nat) (v : α) : List (Nat × α) :=
  if (alookup k l).isSome then
    l.map (fun p => if p.1 = k then (k, v) else p)
  else
    l ++ [(k, v)]

/-- defaultdict-style lookup with a default value. -/
def lookupD {α : Type} (l : List (Nat × α)) (k : Nat) (d : α) : α :=
  (alookup k l).getD d

/-- Association-list model of `del d[k]` / `d.pop(k, None)`. -/
def eraseKey {α : Type} (l : List (Nat × α)) (k : Nat) : List (Nat × α) :=
  l.filter (fun p => decide (p.1 ≠ k))

/-- Mutable state of a `DoSDetector` instance: the five per-source tracking
dicts, the alert history deque and the blocked-IP set (as a list of distinct
identifiers, in insertion order). -/
structure DetectorState where
  packetTimestamps : List (Nat × List Int)
  packetCounts : List (Nat × Nat)
  synFloodTracking : List (Nat × Nat)
  httpFloodTracking : List (Nat × Nat)
  icmpFloodTracking : List (Nat × Nat)
  alertHistory : List Alert
  blockedIps : List Nat
deriving DecidableEq

/-- A freshly constructed detector: all tracking structures empty. -/
def emptyState : DetectorState :=
  ⟨[], [], [], [], [], [], []⟩

/-- Result of one `_trigger_alert` call: the new state, whether a new alert
fired, and whether `_block_ip` / `_report_to_api` were invoked. -/
structure TriggerResult where
  state : DetectorState
  fired : Bool
  blockCalled : Bool
  reportCalled : Bool
deriving DecidableEq

/-- `DoSDetector._trigger_alert` (firewall.py lines 226-256): return early if
a recent alert for the same source is in the history; otherwise append the
new alert (deque with maxlen 100), call `_block_ip` when `block_ips` is set
(`blockOk` abstracts the external firewall command succeeding), call
`_report_to_api` when an API URL is configured, and reset, for that source, the three
signature counters to 0.  The timestamp window is not touched. -/
def triggerAlert (cfg : Config) (blockOk : Bool) (st : DetectorState)
    (srcIp packetCount : Nat) (attackType : AttackType) (now : Int) : TriggerResult :=
  if isDuplicate st.alertHistory srcIp now cfg.timeWindow then
    { state := st, fired := false, blockCalled := false, reportCalled := false }
  else
    let alert : Alert :=
      { timestamp := now, srcIp := srcIp, packetCount := packetCount, attackType := attackType }
    let blocked :=
      if cfg.blockIps && !(st.blockedIps.contains srcIp) && blockOk then
        st.blockedIps ++ [srcIp]
      else
        st.blockedIps
    { state := { st with
        alertHistory := dequeAppend 100 st.alertHistory alert,
        blockedIps := blocked,
        synFloodTracking := aset st.synFloodTracking srcIp 0,
        httpFloodTracking := aset st.httpFloodTracking srcIp 0,
        icmpFloodTracking := aset st.icmpFloodTracking srcIp 0 },
      fired := true,
      blockCalled := cfg.blockIps,
      reportCalled := cfg.apiUrl.isSome }

/-- `DoSDetector._clean_old_timestamps` (firewall.py lines 258-264) acting on
the state: only rewrites the entry when the source is tracked. -/
def pruneIp (now timeWindow : Int) (st : DetectorState) (ip : Nat) : DetectorState :=
  if (alookup ip st.packetTimestamps).isSome then
    { st with
        packetTimestamps :=
          aset st.packetTimestamps ip
            (cleanOldTimestamps (lookupD st.packetTimestamps ip []) now timeWindow) }
  else
    st

/-- The eviction step of `_maintenance_task` (firewall.py lines 278-282):
`del packet_timestamps[ip]` plus `pop(ip, None)` on the other four dicts. -/
def eraseIpAll (st : DetectorState) (ip : Nat) : DetectorState :=
  { st with
    packetTimestamps := eraseKey st.packetTimestamps ip,
    packetCounts := eraseKey st.packetCounts ip,
    synFloodTracking := eraseKey st.synFloodTracking ip,
    httpFloodTracking := eraseKey st.httpFloodTracking ip,
    icmpFloodTracking := eraseKey st.icmpFloodTracking ip }

/-- One iteration of the sweep loop in `_maintenance_task` (firewall.py lines
273-282): clean the timestamps of the source, then evict the source entirely if
its window is now empty. -/
def sweepIp (now timeWindow : Int) (st : DetectorState) (ip : Nat) : DetectorState :=
  let st1 := pruneIp now timeWindow st ip
  if (lookupD st1.packetTimestamps ip []).length = 0 then eraseIpAll st1 ip else st1

/-- One full maintenance sweep of `_maintenance_task` (firewall.py lines
270-282): iterate over a snapshot `list(self.packet_timestamps.keys())` of
the tracked sources. -/
def maintenanceSweep (st : DetectorState) (now timeWindow : Int) : DetectorState :=
  (st.packetTimestamps.map Prod.fst).foldl (sweepIp now timeWindow) st

/-- `DoSDetector._unblock_ip` (firewall.py lines 313-334) acting on the
blocked set: a no-op when the IP is not blocked; otherwise run the external
`netsh` delete command (`ok ip` abstracts its success) and remove the IP from
the set only on success.  All exceptions inside are caught and logged. -/
def unblockIp (ok : Nat → Bool) (blocked : List Nat) (ip : Nat) : List Nat :=
  if blocked.contains ip then
    if ok ip then blocked.erase ip else blocked
  else
    blocked

/-- Outcome of the unblock loop in `stop`: either the loop completed, or a
`RuntimeError` ("Set changed size during iteration") escaped.  Both carry the
final blocked set and the list of IPs whose unblock was actually attempted. -/
inductive StopResult where
  | completed (blocked : List Nat) (attempted : List Nat)
  | runtimeErr (blocked : List Nat) (attempted : List Nat)
deriving DecidableEq

/-- CPython semantics of `for ip in self.blocked_ips: self._unblock_ip(ip)`
(firewall.py lines 108-109): the set iterator records the size of the set at
creation (`n0`) and every subsequent fetch -- including the final one that
would report exhaustion -- raises `RuntimeError` if the live size differs. -/
def setForLoop (ok : Nat → Bool) (n0 : Nat) :
    List Nat → List Nat → List Nat → StopResult
  | [], blocked, attempted =>
      if blocked.length = n0 then StopResult.completed blocked attempted
      else StopResult.runtimeErr blocked attempted
  | ip :: rest, blocked, attempted =>
      if blocked.length = n0 then
        setForLoop ok n0 rest (unblockIp ok blocked ip) (attempted ++ [ip])
      else
        StopResult.runtimeErr blocked attempted

/-- The unblock phase of `DoSDetector.stop` (firewall.py lines 101-109):
`if self.block_ips and self.blocked_ips: for ip in self.blocked_ips: ...`. -/
def stopDetector (blockIps : Bool) (ok : Nat → Bool) (blocked : List Nat) : StopResult :=
  if blockIps && !blocked.isEmpty then
    setForLoop ok blocked.length blocked blocked []
  else
    StopResult.completed blocked []

/-- A TCP packet with the SYN flag set, the ACK flag clear, destination port
80 and a Raw payload containing "GET": it matches both the SYN-flood and the
HTTP-flood signature at once. -/
def synHttpEvent : PacketEvent :=
  { hasTCP := true, hasICMP := false, hasRaw := true,
    tcpFlags := 2, dport := 80, payload := "GET / HTTP/1.1".toList }

/-- A small configuration (threshold 10, window 10s) used for concrete runs. -/
def c6Cfg : Config := ⟨10, 10, false, none⟩

/-- A detector state holding one alert for source 7 at time 0. -/
def c6St : DetectorState :=
  ⟨[], [], [], [], [], [⟨0, 7, 5, AttackType.generalDoS⟩], []⟩

/-- A detector state tracking sources 1 (stale window) and 2 (fresh window). -/
def c8St : DetectorState :=
  ⟨[(1, [0]), (2, [100])], [(1, 5), (2, 7)], [(1, 1), (2, 0)], [(1, 0), (2, 0)],
    [(1, 0), (2, 2)], [], []⟩

theorem cleanOldTimestamps_sublist (window : List Int) (now W : Int) :
    List.Sublist (cleanOldTimestamps window now W) window :=
  List.filter_sublist window

theorem cleanOldTimestamps_count (window : List Int) (now W : Int) (ts : Int)
    (h : now - ts ≤ W) :
    (cleanOldTimestamps window now W).count ts = window.count ts := by
  unfold cleanOldTimestamps
  exact List.count_filter (by simpa using h)

theorem cleanOldTimestamps_mem (window : List Int) (now W : Int) (ts : Int)
    (h : ts ∈ cleanOldTimestamps window now W) : now - ts ≤ W := by
  unfold cleanOldTimestamps at h
  simpa using (List.mem_filter.mp h).2

/-- C5: `_clean_old_timestamps` removes exactly the timestamps with
`now - ts > W`: the result is the original list with some elements removed
(order preserved), every timestamp with `now - ts <= W` is kept with its
multiplicity, and nothing older than `now - W` remains. -/
theorem c5_prune_exact (window : List Int) (now W : Int) :
    List.Sublist (cleanOldTimestamps window now W) window ∧
    (∀ ts : Int, now - ts ≤ W →
      (cleanOldTimestamps window now W).count ts = window.count ts) ∧
    (∀ ts ∈ cleanOldTimestamps window now W, ¬ (now - ts > W)) := by
  refine ⟨cleanOldTimestamps_sublist window now W, ?_, ?_⟩
  · intro ts h
    exact cleanOldTimestamps_count window now W ts h
  · intro ts h
    exact not_lt.mpr (cleanOldTimestamps_mem window now W ts h)

theorem c5_witness :
    List.Sublist (cleanOldTimestamps [0, -20] 0 10) [0, -20] ∧
    (cleanOldTimestamps [0, -20] 0 10).count 0 = ([0, -20] : List Int).count 0 :=
  ⟨(c5_prune_exact [0, -20] 0 10).1,
   (c5_prune_exact [0, -20] 0 10).2.1 0 (by decide)⟩

/-- C1: evaluation order of `_check_thresholds` on a pruned record. -/
theorem c1_threshold_priority (r : TrafficRecord) (now : Int) (cfg : Config)
    (hpr : cleanOldTimestamps r.window now cfg.timeWindow = r.window) :
    (r.window.length ≥ cfg.threshold →
      checkThresholdsRec r now cfg =
        some (determineAttackType r.syn r.http r.icmp cfg.threshold, r.window.length)) ∧
    (r.window.length < cfg.threshold → r.syn ≥ cfg.threshold / 2 →
      checkThresholdsRec r now cfg = some (AttackType.synFlood, r.syn)) ∧
    (r.window.length < cfg.threshold → r.syn < cfg.threshold / 2 →
      r.http ≥ cfg.threshold / 3 →
      checkThresholdsRec r now cfg = some (AttackType.httpFlood, r.http)) ∧
    (r.window.length < cfg.threshold → r.syn < cfg.threshold / 2 →
      r.http < cfg.threshold / 3 → r.icmp ≥ cfg.threshold / 4 →
      checkThresholdsRec r now cfg = some (AttackType.icmpFlood, r.icmp)) ∧
    (r.window.length < cfg.threshold → r.syn < cfg.threshold / 2 →
      r.http < cfg.threshold / 3 → r.icmp < cfg.threshold / 4 →
      checkThresholdsRec r now cfg = none) := by
  unfold checkThresholdsRec
  rw [hpr]
  refine ⟨?_, ?_, ?_, ?_, ?_⟩
  · intro h1
    rw [if_pos h1]
  · intro h1 h2
    rw [if_neg (by omega), if_pos h2]
  · intro h1 h2 h3
    rw [if_neg (by omega), if_neg (by omega), if_pos h3]
  · intro h1 h2 h3 h4
    rw [if_neg (by omega), if_neg (by omega), if_neg (by omega), if_pos h4]
  · intro h1 h2 h3 h4
    rw [if_neg (by omega), if_neg (by omega), if_neg (by omega), if_neg (by omega)]

theorem c1_witness :
    checkThresholdsRec ⟨[], 5, 0, 0⟩ 0 ⟨10, 10, false, none⟩ =
      some (AttackType.synFlood, 5) :=
  (c1_threshold_priority ⟨[], 5, 0, 0⟩ 0 ⟨10, 10, false, none⟩ (by decide)).2.1
    (by decide) (by decide)

/-- C4: the general-path refinement selects the maximum of the three
signature counters, ties broken by the fixed priority
SynFlood > HttpFlood > IcmpFlood. -/
theorem c4_tie_break (s h i th : Nat) :
    (s ≤ (maxSig s h i).2 ∧ h ≤ (maxSig s h i).2 ∧ i ≤ (maxSig s h i).2) ∧
    (maxSig s h i = (AttackType.synFlood, s) ∨ maxSig s h i = (AttackType.httpFlood, h) ∨
      maxSig s h i = (AttackType.icmpFlood, i)) ∧
    ((maxSig s h i).1 = AttackType.synFlood ↔ h ≤ s ∧ i ≤ s) ∧
    ((maxSig s h i).1 = AttackType.httpFlood ↔ s < h ∧ i ≤ h) ∧
    ((maxSig s h i).1 = AttackType.icmpFlood ↔ s < i ∧ h < i) ∧
    determineAttackType s h i th =
      (if (maxSig s h i).2 > th / 5 then (maxSig s h i).1 else AttackType.generalDoS) := by
  have hm : (s < h ∧ h < i ∧ maxSig s h i = (AttackType.icmpFlood, i)) ∨
      (s < h ∧ i ≤ h ∧ maxSig s h i = (AttackType.httpFlood, h)) ∨
      (h ≤ s ∧ s < i ∧ maxSig s h i = (AttackType.icmpFlood, i)) ∨
      (h ≤ s ∧ i ≤ s ∧ maxSig s h i = (AttackType.synFlood, s)) := by
    rcases Nat.lt_or_ge s h with hsh | hsh
    · rcases Nat.lt_or_ge h i with hhi | hhi
      · exact Or.inl ⟨hsh, hhi, by simp [maxSig, hsh, hhi]⟩
      · exact Or.inr (Or.inl ⟨hsh, hhi, by simp [maxSig, hsh, Nat.not_lt.mpr hhi]⟩)
    · rcases Nat.lt_or_ge s i with hsi | hsi
      · exact Or.inr (Or.inr (Or.inl
          ⟨hsh, hsi, by simp [maxSig, Nat.not_lt.mpr hsh, hsi]⟩))
      · exact Or.inr (Or.inr (Or.inr
          ⟨hsh, hsi, by simp [maxSig, Nat.not_lt.mpr hsh, Nat.not_lt.mpr hsi]⟩))
  refine ⟨?_, ?_, ?_, ?_, ?_, rfl⟩ <;>
    · rcases hm with ⟨h1, h2, he⟩ | ⟨h1, h2, he⟩ | ⟨h1, h2, he⟩ | ⟨h1, h2, he⟩ <;>
        rw [he] <;> simp <;> omega

theorem c4_witness : (maxSig 3 3 2).1 = AttackType.synFlood :=
  (c4_tie_break 3 3 2 10).2.2.1.mpr (by decide)

/-- C2 counterexample: `_check_attack_signatures` increments both `syn_count`
and `http_count` for a single SYN packet to port 80 carrying a "GET" payload,
so the three signature buckets are not mutually exclusive per event. -/
theorem c2_counterexample :
    (checkAttackSignatures synHttpEvent ⟨0, 0, 0⟩).syn = 1 ∧
    (checkAttackSignatures synHttpEvent ⟨0, 0, 0⟩).http = 1 := by
  decide

/-- C2 amended: the three signature checks of `_check_attack_signatures` are
independent; each counter is incremented exactly when its own signature
matches, so one event increments every matching counter (possibly more than
one), not at most one. -/
theorem c2_amended_independent_counters (e : PacketEvent) (c : Counters) :
    (checkAttackSignatures e c).syn = c.syn + (if synSig e then 1 else 0) ∧
    (checkAttackSignatures e c).http = c.http + (if httpSig e then 1 else 0) ∧
    (checkAttackSignatures e c).icmp = c.icmp + (if icmpSig e then 1 else 0) := by
  unfold checkAttackSignatures
  cases hs : synSig e <;> cases hh : httpSig e <;> cases hi : icmpSig e <;>
    simp [hs, hh, hi]

/-- C3 counterexample: threshold 10, a pruned window of 10 timestamps and
`syn_count = 9 > 10 / 5`; the alert is labelled SynFlood but its evidence
count is `len(window) = 10`, not the signature counter 9 that the claim
predicts. -/
theorem c3_counterexample :
    checkThresholdsRec ⟨[0, 0, 0, 0, 0, 0, 0, 0, 0, 0], 9, 0, 0⟩ 0 ⟨10, 10, false, none⟩ =
      some (AttackType.synFlood, 10) ∧
    checkThresholdsRec ⟨[0, 0, 0, 0, 0, 0, 0, 0, 0, 0], 9, 0, 0⟩ 0 ⟨10, 10, false, none⟩ ≠
      some (AttackType.synFlood, 9) := by
  decide

/-- C3 amended: on the general-threshold path the attack-type label is still
refined through the signature maximum against `threshold // 5`, but the
evidence count passed to the alert is always the pruned window length,
for the refined signature labels just as for GeneralDoS. -/
theorem c3_amended_general_path_evidence (r : TrafficRecord) (now : Int) (cfg : Config)
    (hpr : cleanOldTimestamps r.window now cfg.timeWindow = r.window)
    (hge : r.window.length ≥ cfg.threshold) :
    checkThresholdsRec r now cfg =
      some ((if (maxSig r.syn r.http r.icmp).2 > cfg.threshold / 5 then
              (maxSig r.syn r.http r.icmp).1
            else AttackType.generalDoS), r.window.length) := by
  unfold checkThresholdsRec
  rw [hpr, if_pos hge]
  rfl

theorem c3_amended_witness :
    checkThresholdsRec ⟨[0, 0, 0, 0, 0, 0, 0, 0, 0, 0], 9, 0, 0⟩ 0 ⟨10, 10, false, none⟩ =
      some ((if (maxSig 9 0 0).2 > 10 / 5 then (maxSig 9 0 0).1 else AttackType.generalDoS),
        10) :=
  c3_amended_general_path_evidence ⟨[0, 0, 0, 0, 0, 0, 0, 0, 0, 0], 9, 0, 0⟩ 0
    ⟨10, 10, false, none⟩ (by decide) (by decide)

theorem isDuplicate_eq_true_iff (hist : List Alert) (src : Nat) (now W : Int) :
    isDuplicate hist src now W = true ↔
      ∃ a ∈ hist, a.srcIp = src ∧ now - a.timestamp < W * 2 := by
  simp [isDuplicate]

/-- C6: while an alert for the source sits in the history and is less than
`time_window * 2` old, `_trigger_alert` suppresses: the state is returned
unchanged (no alert appended, no counters reset) and neither `_block_ip` nor
`_report_to_api` is called; once every alert for the source in the history is
at least `time_window * 2` old, a new qualifying trigger fires and appends a
new alert. -/
theorem c6_dedup_suppression (cfg : Config) (bOk : Bool) (st : DetectorState)
    (src pc : Nat) (ty : AttackType) (now : Int) :
    ((∃ a ∈ st.alertHistory, a.srcIp = src ∧ now - a.timestamp < cfg.timeWindow * 2) →
      triggerAlert cfg bOk st src pc ty now = ⟨st, false, false, false⟩) ∧
    ((∀ a ∈ st.alertHistory, a.srcIp = src → cfg.timeWindow * 2 ≤ now - a.timestamp) →
      (triggerAlert cfg bOk st src pc ty now).fired = true ∧
      (triggerAlert cfg bOk st src pc ty now).state.alertHistory =
        dequeAppend 100 st.alertHistory ⟨now, src, pc, ty⟩) := by
  constructor
  · intro hex
    have hd : isDuplicate st.alertHistory src now cfg.timeWindow = true :=
      (isDuplicate_eq_true_iff st.alertHistory src now cfg.timeWindow).mpr hex
    unfold triggerAlert
    rw [if_pos hd]
  · intro hall
    have hd : isDuplicate st.alertHistory src now cfg.timeWindow = false := by
      have hne : ¬ isDuplicate st.alertHistory src now cfg.timeWindow = true := by
        rw [isDuplicate_eq_true_iff]
        rintro ⟨a, ha, hsrc, hlt⟩
        exact absurd hlt (not_lt.mpr (hall a ha hsrc))
      simpa using hne
    unfold triggerAlert
    rw [if_neg (by simp [hd])]
    exact ⟨rfl, rfl⟩

theorem c6_witness :
    triggerAlert c6Cfg false c6St 7 9 AttackType.synFlood 5 = ⟨c6St, false, false, false⟩ ∧
    (triggerAlert c6Cfg false c6St 7 9 AttackType.synFlood 25).fired = true :=
  ⟨(c6_dedup_suppression c6Cfg false c6St 7 9 AttackType.synFlood 5).1
      ⟨⟨0, 7, 5, AttackType.generalDoS⟩, by decide, rfl, by decide⟩,
   ((c6_dedup_suppression c6Cfg false c6St 7 9 AttackType.synFlood 25).2
      (by
        intro a ha hsrc
        have : a = ⟨0, 7, 5, AttackType.generalDoS⟩ := by
          simpa [c6St] using ha
        subst this
        decide)).1⟩

theorem alookup_map_set {α : Type} (k : Nat) (v : α) :
    ∀ l : List (Nat × α), (alookup k l).isSome = true →
      alookup k (l.map (fun p => if p.1 = k then (k, v) else p)) = some v := by
  intro l
  induction l with
  | nil => intro h; simp [alookup] at h
  | cons p tl ih =>
    intro h
    by_cases hp : p.1 = k
    · simp [alookup, hp]
    · have h2 : (alookup k tl).isSome = true := by simpa [alookup, hp] using h
      simpa [alookup, hp] using ih h2

theorem alookup_append_single {α : Type} (k : Nat) (v : α) :
    ∀ l : List (Nat × α), (alookup k l).isSome = false →
      alookup k (l ++ [(k, v)]) = some v := by
  intro l
  induction l with
  | nil => intro _; simp [alookup]
  | cons p tl ih =>
    intro h
    by_cases hp : p.1 = k
    · simp [alookup, hp] at h
    · have h2 : (alookup k tl).isSome = false := by simpa [alookup, hp] using h
      simpa [alookup, hp] using ih h2

theorem alookup_aset_self {α : Type} (l : List (Nat × α)) (k : Nat) (v : α) :
    alookup k (aset l k v) = some v := by
  unfold aset
  cases h : (alookup k l).isSome
  · rw [if_neg (by simp [h])]
    exact alookup_append_single k v l h
  · rw [if_pos (by simp [h])]
    exact alookup_map_set k v l h

theorem alookup_map_set_ne {α : Type} (k j : Nat) (v : α) (hjk : j ≠ k) :
    ∀ l : List (Nat × α),
      alookup j (l.map (fun p => if p.1 = k then (k, v) else p)) = alookup j l := by
  intro l
  induction l with
  | nil => rfl
  | cons p tl ih =>
    by_cases hp : p.1 = k
    · have hjp : p.1 ≠ j := by rw [hp]; exact fun hkj => hjk hkj.symm
      simp [alookup, hp, Ne.symm hjk, hjp, ih]
    · by_cases hj : p.1 = j
      · simp [alookup, hp, hj, hjk]
      · simp [alookup, hp, hj, ih]

theorem alookup_append_single_ne {α : Type} (k j : Nat) (v : α) (hjk : j ≠ k) :
    ∀ l : List (Nat × α), alookup j (l ++ [(k, v)]) = alookup j l := by
  intro l
  induction l with
  | nil => simp [alookup, Ne.symm hjk]
  | cons p tl ih =>
    by_cases hj : p.1 = j
    · simp [alookup, hj]
    · simp [alookup, hj, ih]

theorem alookup_aset_ne {α : Type} (l : List (Nat × α)) (k j : Nat) (v : α) (hjk : j ≠ k) :
    alookup j (aset l k v) = alookup j l := by
  unfold aset
  split_ifs
  · exact alookup_map_set_ne k j v hjk l
  · exact alookup_append_single_ne k j v hjk l

theorem alookup_eraseKey_self {α : Type} (k : Nat) :
    ∀ l : List (Nat × α), alookup k (eraseKey l k) = none := by
  intro l
  induction l with
  | nil => rfl
  | cons p tl ih =>
    by_cases hp : p.1 = k
    · simpa [eraseKey, List.filter_cons, hp] using ih
    · simpa [eraseKey, List.filter_cons, hp, alookup] using ih

theorem alookup_eraseKey_ne {α : Type} (k j : Nat) (hjk : j ≠ k) :
    ∀ l : List (Nat × α), alookup j (eraseKey l k) = alookup j l := by
  intro l
  induction l with
  | nil => rfl
  | cons p tl ih =>
    by_cases hp : p.1 = k
    · have hkj : k ≠ j := Ne.symm hjk
      simpa [eraseKey, List.filter_cons, hp, alookup, hkj] using ih
    · by_cases hj : p.1 = j
      · simp [eraseKey, List.filter_cons, hp, alookup, hj, hjk]
      · simpa [eraseKey, List.filter_cons, hp, alookup, hj] using ih

theorem mem_keys_of_alookup {α : Type} (k : Nat) (v : α) :
    ∀ l : List (Nat × α), alookup k l = some v → k ∈ l.map Prod.fst := by
  intro l
  induction l with
  | nil => intro h; simp [alookup] at h
  | cons p tl ih =>
    intro h
    by_cases hp : p.1 = k
    · simp [hp]
    · simp only [alookup, if_neg hp] at h
      simp only [List.map_cons, List.mem_cons]
      exact Or.inr (ih h)

theorem alookup_eq_none_of_not_mem_keys {α : Type} (k : Nat) (l : List (Nat × α))
    (h : k ∉ l.map Prod.fst) : alookup k l = none := by
  cases hl : alookup k l with
  | none => rfl
  | some v => exact absurd (mem_keys_of_alookup k v l hl) h

theorem dequeAppend_bounded (hist : List Alert) (a : Alert) (hlen : hist.length ≤ 100) :
    dequeAppend 100 hist a =
      (if hist.length < 100 then hist ++ [a] else hist.drop 1 ++ [a]) ∧
    (dequeAppend 100 hist a).length ≤ 100 := by
  unfold dequeAppend
  rcases Nat.lt_or_ge hist.length 100 with hlt | hge
  · rw [if_neg (by simp; omega), if_pos hlt]
    refine ⟨rfl, by simp; omega⟩
  · have h100 : hist.length = 100 := le_antisymm hlen hge
    rw [if_pos (by simp [h100]), if_neg (by omega)]
    constructor
    · have hd : (hist ++ [a]).length - 100 = 1 := by simp [h100]
      rw [hd, List.drop_append_of_le_length (by omega)]
    · simp [h100]

/-- C7: a non-duplicate `_trigger_alert` appends the alert to the bounded
history (capacity 100, oldest evicted), resets, for that source, the three signature
counters to zero and leaves the timestamp window untouched. -/
theorem c7_alert_effects (cfg : Config) (bOk : Bool) (st : DetectorState)
    (src pc : Nat) (ty : AttackType) (now : Int)
    (hnd : isDuplicate st.alertHistory src now cfg.timeWindow = false)
    (hlen : st.alertHistory.length ≤ 100) :
    (triggerAlert cfg bOk st src pc ty now).fired = true ∧
    (triggerAlert cfg bOk st src pc ty now).state.alertHistory =
      (if st.alertHistory.length < 100 then st.alertHistory ++ [⟨now, src, pc, ty⟩]
       else st.alertHistory.drop 1 ++ [⟨now, src, pc, ty⟩]) ∧
    (triggerAlert cfg bOk st src pc ty now).state.alertHistory.length ≤ 100 ∧
    alookup src (triggerAlert cfg bOk st src pc ty now).state.synFloodTracking = some 0 ∧
    alookup src (triggerAlert cfg bOk st src pc ty now).state.httpFloodTracking = some 0 ∧
    alookup src (triggerAlert cfg bOk st src pc ty now).state.icmpFloodTracking = some 0 ∧
    (triggerAlert cfg bOk st src pc ty now).state.packetTimestamps = st.packetTimestamps := by
  unfold triggerAlert
  rw [if_neg (by simp [hnd])]
  refine ⟨rfl, ?_, ?_, ?_, ?_, ?_, rfl⟩
  · exact (dequeAppend_bounded st.alertHistory ⟨now, src, pc, ty⟩ hlen).1
  · exact (dequeAppend_bounded st.alertHistory ⟨now, src, pc, ty⟩ hlen).2
  · exact alookup_aset_self st.synFloodTracking src 0
  · exact alookup_aset_self st.httpFloodTracking src 0
  · exact alookup_aset_self st.icmpFloodTracking src 0

theorem c7_witness :
    (triggerAlert ⟨10, 10, false, none⟩ false emptyState 3 50 AttackType.synFlood 0).fired =
      true ∧
    alookup 3
        (triggerAlert ⟨10, 10, false, none⟩ false emptyState 3 50
          AttackType.synFlood 0).state.synFloodTracking = some 0 :=
  ⟨(c7_alert_effects ⟨10, 10, false, none⟩ false emptyState 3 50 AttackType.synFlood 0
      (by decide) (by decide)).1,
   (c7_alert_effects ⟨10, 10, false, none⟩ false emptyState 3 50 AttackType.synFlood 0
      (by decide) (by decide)).2.2.2.1⟩

theorem pruneIp_alookup_self (now tw : Int) (st : DetectorState) (ip : Nat) :
    alookup ip (pruneIp now tw st ip).packetTimestamps =
      (if (alookup ip st.packetTimestamps).isSome then
        some (cleanOldTimestamps (lookupD st.packetTimestamps ip []) now tw)
      else none) := by
  unfold pruneIp
  by_cases h : (alookup ip st.packetTimestamps).isSome = true
  · rw [if_pos h, if_pos h]
    exact alookup_aset_self _ _ _
  · rw [if_neg h, if_neg h]
    simpa [Option.not_isSome_iff_eq_none] using h

theorem pruneIp_alookup_ne (now tw : Int) (st : DetectorState) (ip j : Nat) (hj : j ≠ ip) :
    alookup j (pruneIp now tw st ip).packetTimestamps = alookup j st.packetTimestamps := by
  unfold pruneIp
  split_ifs
  · exact alookup_aset_ne st.packetTimestamps ip j _ hj
  · rfl

theorem pruneIp_others (now tw : Int) (st : DetectorState) (ip : Nat) :
    (pruneIp now tw st ip).packetCounts = st.packetCounts ∧
    (pruneIp now tw st ip).synFloodTracking = st.synFloodTracking ∧
    (pruneIp now tw st ip).httpFloodTracking = st.httpFloodTracking ∧
    (pruneIp now tw st ip).icmpFloodTracking = st.icmpFloodTracking := by
  unfold pruneIp
  split_ifs <;> exact ⟨rfl, rfl, rfl, rfl⟩

theorem sweepIp_alookup_ne (now tw : Int) (st : DetectorState) (ip j : Nat) (hj : j ≠ ip) :
    alookup j (sweepIp now tw st ip).packetTimestamps = alookup j st.packetTimestamps ∧
    alookup j (sweepIp now tw st ip).packetCounts = alookup j st.packetCounts ∧
    alookup j (sweepIp now tw st ip).synFloodTracking = alookup j st.synFloodTracking ∧
    alookup j (sweepIp now tw st ip).httpFloodTracking = alookup j st.httpFloodTracking ∧
    alookup j (sweepIp now tw st ip).icmpFloodTracking = alookup j st.icmpFloodTracking := by
  simp only [sweepIp]
  split_ifs with hc
  · refine ⟨?_, ?_, ?_, ?_, ?_⟩
    · simp only [eraseIpAll]
      rw [alookup_eraseKey_ne ip j hj, pruneIp_alookup_ne now tw st ip j hj]
    · simp only [eraseIpAll]
      rw [alookup_eraseKey_ne ip j hj, (pruneIp_others now tw st ip).1]
    · simp only [eraseIpAll]
      rw [alookup_eraseKey_ne ip j hj, (pruneIp_others now tw st ip).2.1]
    · simp only [eraseIpAll]
      rw [alookup_eraseKey_ne ip j hj, (pruneIp_others now tw st ip).2.2.1]
    · simp only [eraseIpAll]
      rw [alookup_eraseKey_ne ip j hj, (pruneIp_others now tw st ip).2.2.2]
  · refine ⟨pruneIp_alookup_ne now tw st ip j hj, ?_, ?_, ?_, ?_⟩
    · rw [(pruneIp_others now tw st ip).1]
    · rw [(pruneIp_others now tw st ip).2.1]
    · rw [(pruneIp_others now tw st ip).2.2.1]
    · rw [(pruneIp_others now tw st ip).2.2.2]

theorem sweepIp_alookup_self (now tw : Int) (st : DetectorState) (ip : Nat) :
    alookup ip (sweepIp now tw st ip).packetTimestamps =
      (if (cleanOldTimestamps (lookupD st.packetTimestamps ip []) now tw).length = 0 then none
       else some (cleanOldTimestamps (lookupD st.packetTimestamps ip []) now tw)) ∧
    ((cleanOldTimestamps (lookupD st.packetTimestamps ip []) now tw).length = 0 →
      alookup ip (sweepIp now tw st ip).packetCounts = none ∧
      alookup ip (sweepIp now tw st ip).synFloodTracking = none ∧
      alookup ip (sweepIp now tw st ip).httpFloodTracking = none ∧
      alookup ip (sweepIp now tw st ip).icmpFloodTracking = none) := by
  have hts := pruneIp_alookup_self now tw st ip
  simp only [sweepIp]
  cases hl : alookup ip st.packetTimestamps with
  | some w =>
      have hsome : (alookup ip st.packetTimestamps).isSome = true := by simp [hl]
      rw [if_pos hsome] at hts
      have hD1 : lookupD (pruneIp now tw st ip).packetTimestamps ip [] =
          cleanOldTimestamps (lookupD st.packetTimestamps ip []) now tw := by
        simp [lookupD, hts]
      by_cases hc : (cleanOldTimestamps (lookupD st.packetTimestamps ip []) now tw).length = 0
      · rw [if_pos (by rw [hD1]; exact hc)]
        constructor
        · rw [if_pos hc]
          simp [eraseIpAll, alookup_eraseKey_self]
        · intro _
          refine ⟨?_, ?_, ?_, ?_⟩ <;> simp [eraseIpAll, alookup_eraseKey_self]
      · rw [if_neg (by rw [hD1]; exact hc)]
        constructor
        · rw [if_neg hc]
          exact hts
        · intro hcc
          exact absurd hcc hc
  | none =>
      have hnone : ¬ (alookup ip st.packetTimestamps).isSome = true := by simp [hl]
      rw [if_neg hnone] at hts
      have hD : lookupD st.packetTimestamps ip [] = ([] : List Int) := by
        simp [lookupD, hl]
      have hc : (cleanOldTimestamps (lookupD st.packetTimestamps ip []) now tw).length = 0 := by
        rw [hD]
        rfl
      have hD1 : lookupD (pruneIp now tw st ip).packetTimestamps ip [] = ([] : List Int) := by
        simp [lookupD, hts]
      rw [if_pos (by rw [hD1]; rfl)]
      constructor
      · rw [if_pos hc]
        simp [eraseIpAll, alookup_eraseKey_self]
      · intro _
        refine ⟨?_, ?_, ?_, ?_⟩ <;> simp [eraseIpAll, alookup_eraseKey_self]

theorem foldSweep_alookup_not_mem (now tw : Int) :
    ∀ (ks : List Nat) (st : DetectorState) (j : Nat), j ∉ ks →
      alookup j (ks.foldl (sweepIp now tw) st).packetTimestamps =
        alookup j st.packetTimestamps ∧
      alookup j (ks.foldl (sweepIp now tw) st).packetCounts = alookup j st.packetCounts ∧
      alookup j (ks.foldl (sweepIp now tw) st).synFloodTracking =
        alookup j st.synFloodTracking ∧
      alookup j (ks.foldl (sweepIp now tw) st).httpFloodTracking =
        alookup j st.httpFloodTracking ∧
      alookup j (ks.foldl (sweepIp now tw) st).icmpFloodTracking =
        alookup j st.icmpFloodTracking := by
  intro ks
  induction ks with
  | nil => intro st j _; exact ⟨rfl, rfl, rfl, rfl, rfl⟩
  | cons a tl ih =>
    intro st j hj
    have hja : j ≠ a := fun h => hj (h ▸ List.mem_cons_self a tl)
    have hjtl : j ∉ tl := fun h => hj (List.mem_cons_of_mem a h)
    have h1 := sweepIp_alookup_ne now tw st a j hja
    have h2 := ih (sweepIp now tw st a) j hjtl
    simp only [List.foldl_cons]
    exact ⟨h2.1.trans h1.1, h2.2.1.trans h1.2.1, h2.2.2.1.trans h1.2.2.1,
      h2.2.2.2.1.trans h1.2.2.2.1, h2.2.2.2.2.trans h1.2.2.2.2⟩

theorem foldSweep_alookup_mem (now tw : Int) :
    ∀ (ks : List Nat) (st : DetectorState) (ip : Nat), ks.Nodup → ip ∈ ks →
      alookup ip (ks.foldl (sweepIp now tw) st).packetTimestamps =
        (if (cleanOldTimestamps (lookupD st.packetTimestamps ip []) now tw).length = 0 then
          none
        else some (cleanOldTimestamps (lookupD st.packetTimestamps ip []) now tw)) ∧
      ((cleanOldTimestamps (lookupD st.packetTimestamps ip []) now tw).length = 0 →
        alookup ip (ks.foldl (sweepIp now tw) st).packetCounts = none ∧
        alookup ip (ks.foldl (sweepIp now tw) st).synFloodTracking = none ∧
        alookup ip (ks.foldl (sweepIp now tw) st).httpFloodTracking = none ∧
        alookup ip (ks.foldl (sweepIp now tw) st).icmpFloodTracking = none) := by
  intro ks
  induction ks with
  | nil => intro st ip _ hmem; simp at hmem
  | cons a tl ih =>
    intro st ip hnd hmem
    have hand : a ∉ tl ∧ tl.Nodup := by simpa [List.nodup_cons] using hnd
    simp only [List.foldl_cons]
    rcases List.mem_cons.mp hmem with rfl | htl
    · have hne := foldSweep_alookup_not_mem now tw tl (sweepIp now tw st ip) ip hand.1
      have hself := sweepIp_alookup_self now tw st ip
      refine ⟨hne.1.trans hself.1, ?_⟩
      intro hc
      have h2 := hself.2 hc
      exact ⟨hne.2.1.trans h2.1, hne.2.2.1.trans h2.2.1, hne.2.2.2.1.trans h2.2.2.1,
        hne.2.2.2.2.trans h2.2.2.2⟩
    · have hia : ip ≠ a := fun h => hand.1 (h ▸ htl)
      have hpre := sweepIp_alookup_ne now tw st a ip hia
      have hih := ih (sweepIp now tw st a) ip hand.2 htl
      have hD : lookupD (sweepIp now tw st a).packetTimestamps ip [] =
          lookupD st.packetTimestamps ip [] := by
        simp [lookupD, hpre.1]
      rw [hD] at hih
      exact hih

/-- C8: after one maintenance sweep, every tracked source whose pruned window
is empty is removed from all five tracking structures, and every source still
tracked has a non-empty window containing no timestamp older than
`now - time_window`. -/
theorem c8_maintenance_eviction (st : DetectorState) (now tw : Int)
    (hnd : (st.packetTimestamps.map Prod.fst).Nodup) :
    (∀ ip w, alookup ip st.packetTimestamps = some w →
      (cleanOldTimestamps w now tw).length = 0 →
      alookup ip (maintenanceSweep st now tw).packetTimestamps = none ∧
      alookup ip (maintenanceSweep st now tw).packetCounts = none ∧
      alookup ip (maintenanceSweep st now tw).synFloodTracking = none ∧
      alookup ip (maintenanceSweep st now tw).httpFloodTracking = none ∧
      alookup ip (maintenanceSweep st now tw).icmpFloodTracking = none) ∧
    (∀ ip w2, alookup ip (maintenanceSweep st now tw).packetTimestamps = some w2 →
      w2 ≠ [] ∧ ∀ ts ∈ w2, now - ts ≤ tw) := by
  simp only [maintenanceSweep]
  constructor
  · intro ip w hl hc
    have hmem : ip ∈ st.packetTimestamps.map Prod.fst := mem_keys_of_alookup ip w _ hl
    have h := foldSweep_alookup_mem now tw (st.packetTimestamps.map Prod.fst) st ip hnd hmem
    have hD : lookupD st.packetTimestamps ip [] = w := by simp [lookupD, hl]
    rw [hD] at h
    refine ⟨?_, h.2 hc⟩
    have h1 := h.1
    rw [if_pos hc] at h1
    exact h1
  · intro ip w2 hl2
    by_cases hmem : ip ∈ st.packetTimestamps.map Prod.fst
    · have h := foldSweep_alookup_mem now tw (st.packetTimestamps.map Prod.fst) st ip hnd hmem
      rw [h.1] at hl2
      by_cases hz :
          (cleanOldTimestamps (lookupD st.packetTimestamps ip []) now tw).length = 0
      · rw [if_pos hz] at hl2
        exact absurd hl2 (by simp)
      · rw [if_neg hz] at hl2
        have hw : w2 = cleanOldTimestamps (lookupD st.packetTimestamps ip []) now tw := by
          injection hl2.symm
        constructor
        · intro hnil
          rw [hw] at hnil
          exact hz (by rw [hnil]; rfl)
        · intro ts hts
          rw [hw] at hts
          have := (List.mem_filter.mp hts).2
          simpa using this
    · have hn := (foldSweep_alookup_not_mem now tw (st.packetTimestamps.map Prod.fst) st ip
        hmem).1
      rw [hn, alookup_eq_none_of_not_mem_keys ip _ hmem] at hl2
      exact absurd hl2 (by simp)

theorem c8_witness :
    alookup 1 (maintenanceSweep c8St 100 10).packetTimestamps = none ∧
    alookup 1 (maintenanceSweep c8St 100 10).packetCounts = none ∧
    alookup 1 (maintenanceSweep c8St 100 10).synFloodTracking = none ∧
    alookup 1 (maintenanceSweep c8St 100 10).httpFloodTracking = none ∧
    alookup 1 (maintenanceSweep c8St 100 10).icmpFloodTracking = none :=
  (c8_maintenance_eviction c8St 100 10 (by decide)).1 1 [0] (by decide) (by decide)

/-- C9 (code bug): `stop` iterates over the live `blocked_ips` set while
`_unblock_ip` removes successfully unblocked IPs from that same set.  With
two blocked IPs whose unblock commands succeed, the first success changes the
set size and the next iterator fetch raises `RuntimeError`, so the second IP
is never attempted; only when every unblock fails (set unchanged) does the
loop attempt all blocked sources. -/
theorem c9_stop_unblock_bug :
    stopDetector true (fun _ => true) [1, 2] = StopResult.runtimeErr [2] [1] ∧
    stopDetector true (fun _ => true) [5] = StopResult.runtimeErr [] [5] ∧
    stopDetector true (fun _ => false) [1, 2] = StopResult.completed [1, 2] [1, 2] :=
  ⟨rfl, rfl, rfl⟩

set_option maxRecDepth 10000 in
/-- C10: the dedup scan only sees the bounded 100-entry history.  Source 0
alerts at time 0; 100 further alerts for the distinct sources 1..100 at time
1 evict the alert of source 0 from the deque; a new qualifying trigger for source
0 at time 2 -- far inside the `time_window * 2 = 20` dedup window -- then
fires a second alert. -/
theorem c10_dedup_eviction :
    (triggerAlert ⟨1000, 10, false, none⟩ false emptyState 0 1200
      AttackType.generalDoS 0).fired = true ∧
    (2 : Int) - 0 < (10 : Int) * 2 ∧
    (((List.range 100).foldl
        (fun st k =>
          (triggerAlert ⟨1000, 10, false, none⟩ false st (k + 1) 1200
            AttackType.generalDoS 1).state)
        (triggerAlert ⟨1000, 10, false, none⟩ false emptyState 0 1200
          AttackType.generalDoS 0).state).alertHistory.all
      (fun a => a.srcIp != 0)) = true ∧
    (triggerAlert ⟨1000, 10, false, none⟩ false
      ((List.range 100).foldl
        (fun st k =>
          (triggerAlert ⟨1000, 10, false, none⟩ false st (k + 1) 1200
            AttackType.generalDoS 1).state)
        (triggerAlert ⟨1000, 10, false, none⟩ false emptyState 0 1200
          AttackType.generalDoS 0).state)
      0 1200 AttackType.generalDoS 2).fired = true := by
  refine ⟨rfl, by decide, ?_, ?_⟩ <;> decide

end IrisFirewall
